import Mathlib

/-!
Shallow embedding of the MQTT connection/reconnection state machine and
topic dispatch engine of `src/Network.cpp` (nuki_hub network layer).

Modelling conventions:
* Machine integers (`unsigned long`, i.e. 32-bit `millis()` arithmetic on
  ESP32) are `Nat` with explicit wraparound subtraction `sub32`.
* Stateful methods of the `Network` class become pure functions
  `State → Env → ... → Result × State × List Effect`, where `Effect`
  records every call made to the transport device (publishes, subscribes,
  handshake primitives, GPIO writes, restarts).
* The transport device, preferences store and GPIO subsystem are external
  collaborators; their observable answers during one call are supplied by
  an environment record.
* `millis()` is modelled by an explicit `now` parameter; within one
  straight-line section with no delay the successive `millis()` reads are
  modelled by the same value, and the value after the blocking handshake
  wait of `reconnect` is a separate environment field `nowAfterWait`.
* The `while` loop of `Network::reconnect` executes its body at most once:
  the success branch makes `mqttConnected()` true and the failure branch
  sets `_nextReconnect` 5000 ms into the future, so either way the loop
  condition becomes false.  The embedding therefore unfolds the single
  iteration.
-/

namespace NukiHub

/-- 32-bit unsigned subtraction, as performed on `unsigned long` values by
`ts - _lastConnectedTs` in `Network::update`. -/
def sub32 (a b : Nat) : Nat :=
  (a + 2 ^ 32 - b % 2 ^ 32) % 2 ^ 32

/-- Restart reason codes used by `Network.cpp` (from `RestartReason.h`,
which is not part of the sources; only the four constructors referenced
by `Network.cpp` are modelled). -/
inductive RestartReason where
  | RestartOnDisconnectWatchdog
  | NetworkTimeoutWatchdog
  | NetworkDeviceCriticalFailure
  | NetworkDeviceCriticalFailureNoWifiFallback
deriving DecidableEq, Repr

/-- Result of the transport device's `reconnect()` (from `NetworkDevice.h`,
declared outside the sources; the three values are matched in
`Network::update`). -/
inductive ReconnectStatus where
  | Success
  | Failure
  | CriticalFailure
deriving DecidableEq, Repr

/-- Transport hardware variants (`NetworkDeviceType`). -/
inductive NetworkDeviceType where
  | WiFi
  | W5500
  | Olimex_LAN8720
  | WT32_LAN8720
  | M5STACK_PoESP32_Unit
  | LilyGO_T_ETH_POE
deriving DecidableEq, Repr

/-- GPIO pin roles referenced by `Network.cpp` (from the Gpio collaborator;
`none` models a pin with no matching configured role, on which
`getPinRole` does not return `GeneralOutput`). -/
inductive PinRole where
  | GeneralInputPullDown
  | GeneralInputPullUp
  | GeneralOutput
  | Disabled
deriving DecidableEq, Repr

/-- Every externally observable action `Network.cpp` performs on its
collaborators.  `restartEsp` is modelled as an `UpdateResult` / `SetupResult`
outcome rather than an effect, since it never returns. -/
inductive Effect where
  /-- `_device->update()` -/
  | deviceUpdate
  /-- `_device->reconnect()` -/
  | deviceReconnect
  /-- `_device->mqttSetCredentials(user, pass)` -/
  | mqttSetCredentials (user pass : String)
  /-- `_device->setWill(topic, qos, retain, payload)` -/
  | setWill (topic : String) (qos : Nat) (retain : Bool) (payload : String)
  /-- `_device->mqttSetServer(addr, port)` -/
  | mqttSetServer (addr : String) (port : Int)
  /-- `_device->mqttConnect()` -/
  | mqttConnect
  /-- `_device->mqttDisconnect(force)` -/
  | mqttDisconnect (force : Bool)
  /-- `_device->mqttOnMessage(...)` handler installation -/
  | installMessageHandler
  /-- `_device->mqttSubscribe(topic, qos)` -/
  | mqttSubscribe (topic : String) (qos : Nat)
  /-- `_device->mqttPublish(path, qos, retain, payload)` -/
  | mqttPublish (path : String) (qos : Nat) (retain : Bool) (payload : String)
  /-- a registered reconnected callback (by registration position) invoked -/
  | invokeReconnectedCallback (i : Nat)
  /-- a registered keep-alive callback invocation during the handshake wait -/
  | keepAlive
  /-- `digitalWrite(pin, value)` -/
  | digitalWrite (pin : Int) (value : Nat)
  /-- a registered `MqttReceiver` (by registration position) notified:
  `receiver->onMqttDataReceived(topic, payload, index)` -/
  | notifyReceiver (i : Nat) (topic : String) (payload : List Nat) (lenArg : Nat)
  /-- the HTTPS GET of the latest-release metadata -/
  | httpGetLatestRelease
  /-- `_preferences->putString(preference_latest_version, v)` -/
  | putLatestVersion (v : String)
  /-- `_device->disableMqtt()` -/
  | deviceDisableMqtt
deriving DecidableEq, Repr

/-- `MQTT_QOS_LEVEL`.  Modelled from the spec: the fixed QoS level comes
from `Config.h`, which is not among the sources; the spec only says all
publishes/subscribes use one fixed QoS level, so the concrete value is
irrelevant to every claim. -/
def MQTT_QOS_LEVEL : Nat := 1

/-- `GPIO_DEBOUNCE_TIME`.  Modelled from the spec: the debounce interval
constant comes from `Config.h`, which is not among the sources; no claim
depends on its value. -/
def GPIO_DEBOUNCE_TIME : Nat := 200

/-! Topic fragment constants from `MqttTopics.h` (not among the sources).
Modelled from the spec: §6 lists the topic namespace
`gpio/pin_<n>/role`, `gpio/pin_<n>/state`, `maintenance/wifi_rssi`,
`maintenance/uptime`, etc.; the values below follow those shapes.  The
source constant `mqtt_topic_gpio_prefix` is rendered here as
`mqtt_topic_gpio_pre`. -/

def mqtt_topic_gpio_pre : String := "gpio"
def mqtt_topic_gpio_pin : String := "pin_"
def mqtt_topic_gpio_state : String := "state"
def mqtt_topic_gpio_role : String := "role"
def mqtt_topic_presence : String := "presence"
def mqtt_topic_wifi_rssi : String := "wifi_rssi"
def mqtt_topic_uptime : String := "uptime"
def mqtt_topic_freeheap : String := "freeheap"
def mqtt_topic_restart_reason_fw : String := "restart_reason_fw"
def mqtt_topic_restart_reason_esp : String := "restart_reason_esp"
def mqtt_topic_info_nuki_hub_version : String := "info_nuki_hub_version"
def mqtt_topic_info_nuki_hub_latest : String := "info_nuki_hub_latest"
def mqtt_topic_info_nuki_hub_ip : String := "info_nuki_hub_ip"
def mqtt_topic_network_device : String := "network_device"
def mqtt_topic_mqtt_connection_state : String := "mqtt_connection_state"
def NUKI_HUB_VERSION : String := "8.34"

/-- Indexing a NUL-terminated C string: positions past the end read the
terminator. -/
def charAt (s : String) (i : Nat) : Char :=
  s.data.getD i (Char.ofNat 0)

/-- `Network::buildMqttPath(outPath, paths)`: joins the fragments into
`outPath`; before every fragment except the first, a `/` is appended
unless that fragment's first character is `/` (`path[0] != '/'`; an
empty C string has `path[0] == 0`, so an empty later fragment does get a
separator). -/
def buildMqttPath (paths : List String) : String :=
  go paths 0
where
  /-- one pass of the `for(const char* path : paths)` loop, carrying
  `pathCount`. -/
  go : List String → Nat → String
    | [], _ => ""
    | p :: ps, pathCount =>
      (if pathCount > 0 ∧ charAt p 0 ≠ '/' then "/" ++ p else p)
        ++ go ps (pathCount + 1)

/-- Insertion into `std::map<String, String>` keyed by lexicographic
string order, as performed by `_initTopics[pathStr] = valueStr`:
an existing key is overwritten, otherwise the pair is inserted at its
sorted position (iteration over a `std::map` visits keys in order). -/
def mapInsert (k v : String) : List (String × String) → List (String × String)
  | [] => [(k, v)]
  | (k', v') :: rest =>
    if k = k' then (k, v) :: rest
    else if k < k' then (k, v) :: (k', v') :: rest
    else (k', v') :: mapInsert k v rest

/-- The mutable fields of the `Network` singleton (plus the RTC-memory
fallback marker `WiFi_fallbackDetect` and the file-scope globals
`_ignoreSubscriptionsTs` / `_versionPublished`) that the core state
machine reads or writes.  Configuration fields hold the values loaded
from the preferences store.  The source field `_maintenancePathPrefix`
is rendered `maintenancePath` and `_mqttPresencePrefix` is rendered
`mqttPresencePath`. -/
structure NetworkState where
  mqttEnabled : Bool
  restartOnDisconnect : Bool
  /-- `_networkTimeout` (seconds, `int`; ≤ 0 disables the watchdog) -/
  networkTimeout : Int
  lastConnectedTs : Nat
  nextReconnect : Nat
  /-- `_mqttConnectionState`: 0 disconnected, 1 connecting, 2 connected -/
  mqttConnectionState : Nat
  firstConnect : Bool
  subscribedTopics : List String
  initTopics : List (String × String)
  ignoreSubscriptionsTs : Nat
  mqttBrokerAddr : String
  /-- `_preferences->getInt(preference_mqtt_broker_port)` as read at the
  top of `reconnect()` -/
  brokerPort : Int
  mqttUser : String
  mqttPass : String
  mqttConnectionStateTopic : String
  lastWillPayload : String
  maintenancePath : String
  mqttPresencePath : String
  lockPath : String
  /-- number of registered `MqttReceiver`s (opaque handles, identified by
  registration position) -/
  numReceivers : Nat
  /-- number of registered reconnected callbacks -/
  numReconnectedCallbacks : Nat
  /-- RTC-memory fallback marker `WiFi_fallbackDetect` (its C-string
  content) -/
  fallbackDetect : String
  presenceCsv : Option String
  rssiPublishInterval : Nat
  lastRssiTs : Nat
  lastRssi : Int
  lastMaintenanceTs : Nat
  publishDebugInfo : Bool
  versionPublished : Bool
  lastUpdateCheckTs : Nat
  latestVersion : String
  /-- `_gpioTs` debounce map, pin ↦ last-changed timestamp (0 = idle) -/
  gpioTs : List (Nat × Nat)

/-- `Network::subscribe(prefix, path)`: appends the joined path to the
Subscribed Topic Set. -/
def NetworkState.subscribe (s : NetworkState) (pre path : String) : NetworkState :=
  { s with subscribedTopics := s.subscribedTopics ++ [buildMqttPath [pre, path]] }

/-- `Network::initTopic(prefix, path, value)`: stores the joined path with
its retained initial value in the Init Topic Map. -/
def NetworkState.initTopic (s : NetworkState) (pre path value : String) : NetworkState :=
  { s with initTopics := mapInsert (buildMqttPath [pre, path]) value s.initTopics }

/-- `Network::registerMqttReceiver`. -/
def NetworkState.registerMqttReceiver (s : NetworkState) : NetworkState :=
  { s with numReceivers := s.numReceivers + 1 }

/-- `Network::addReconnectedCallback`. -/
def NetworkState.addReconnectedCallback (s : NetworkState) : NetworkState :=
  { s with numReconnectedCallbacks := s.numReconnectedCallbacks + 1 }

/-- `Network::disableMqtt()`. -/
def NetworkState.disableMqtt (s : NetworkState) : NetworkState × List Effect :=
  ({ s with mqttEnabled := false }, [Effect.deviceDisableMqtt])

/-- Observable answers of the transport device during one `reconnect()`
call. -/
structure ReconnEnv where
  /-- `_device->mqttConnected()` as read by the loop condition on entry -/
  mqttConnectedAtEntry : Bool
  /-- `_device->mqttConnected()` as read after the handshake wait loop
  (line 503): `true` means the broker handshake completed -/
  handshakeConnected : Bool
  /-- `millis()` after the handshake wait loop and the 100 ms settle delay -/
  nowAfterWait : Nat
  /-- `_device->deviceName()` -/
  deviceName : String
  /-- `_device->localIP()` -/
  localIP : String
deriving Repr

/-- `Network::publishString(prefix, topic, value)` produces this transport
call (its boolean result only drives logging in the callers modelled
here). -/
def publishStringEffect (pre topic value : String) : Effect :=
  Effect.mqttPublish (buildMqttPath [pre, topic]) MQTT_QOS_LEVEL true value

/-- `Network::publishInt` payload encoding (`itoa(value, str, 10)`). -/
def publishIntEffect (pre topic : String) (value : Int) : Effect :=
  Effect.mqttPublish (buildMqttPath [pre, topic]) MQTT_QOS_LEVEL true (toString value)

/-- `Network::publishUInt` / `Network::publishULong` payload encoding
(`utoa(value, str, 10)`). -/
def publishUIntEffect (pre topic : String) (value : Nat) : Effect :=
  Effect.mqttPublish (buildMqttPath [pre, topic]) MQTT_QOS_LEVEL true (toString value)

/-- `Network::publishBool` payload encoding (`'1'` / `'0'`). -/
def publishBoolEffect (pre topic : String) (value : Bool) : Effect :=
  Effect.mqttPublish (buildMqttPath [pre, topic]) MQTT_QOS_LEVEL true
    (if value then "1" else "0")

/-- `Network::reconnect()`.  Returns `(|_mqttConnectionState| > 0, new
state, transport calls made)`.  The body of the `while` loop runs at most
once (see the header comment); both the loop condition and the single
iteration are unfolded here.  `now` is `millis()` at entry. -/
def NetworkState.reconnect (s : NetworkState) (env : ReconnEnv) (now : Nat) :
    Bool × NetworkState × List Effect :=
  let s := { s with mqttConnectionState := 0 }
  if !env.mqttConnectedAtEntry && now > s.nextReconnect then
    if s.mqttBrokerAddr = "" then
      -- broker not configured: abort with a 5-second backoff
      (false, { s with nextReconnect := now + 5000 }, [])
    else
      let handshakeEffs :=
        (if s.mqttUser.length = 0 then []
         else [Effect.mqttSetCredentials s.mqttUser s.mqttPass])
        ++ [Effect.setWill s.mqttConnectionStateTopic 1 true s.lastWillPayload,
            Effect.mqttSetServer s.mqttBrokerAddr s.brokerPort,
            Effect.mqttConnect]
      if env.handshakeConnected then
        let firstEffs :=
          if s.firstConnect then
            publishStringEffect s.maintenancePath mqtt_topic_network_device env.deviceName
              :: s.initTopics.map (fun it =>
                   Effect.mqttPublish it.1 MQTT_QOS_LEVEL true it.2)
          else []
        (true,
         { s with
             mqttConnectionState := 2
             ignoreSubscriptionsTs := env.nowAfterWait + 2000
             firstConnect := false },
         handshakeEffs
           ++ [Effect.installMessageHandler]
           ++ s.subscribedTopics.map (fun t => Effect.mqttSubscribe t MQTT_QOS_LEVEL)
           ++ firstEffs
           ++ [publishStringEffect s.maintenancePath mqtt_topic_mqtt_connection_state "online",
               publishStringEffect s.maintenancePath mqtt_topic_info_nuki_hub_ip env.localIP]
           ++ (List.range s.numReconnectedCallbacks).map Effect.invokeReconnectedCallback)
      else
        (false,
         { s with mqttConnectionState := 0, nextReconnect := env.nowAfterWait + 5000 },
         handshakeEffs ++ [Effect.mqttDisconnect true])
  else
    (s.mqttConnectionState > 0, s, [])

/-- Outcome of `Network::update` / `Network::setupDevice`: either the call
returned normally with a boolean, or it escalated to `restartEsp(reason)`
(which never returns). -/
inductive UpdateResult where
  | restarted (r : RestartReason)
  | returned (b : Bool)
deriving DecidableEq, Repr

/-- Observable answers of the collaborators during one `update()` tick. -/
structure UpdateEnv where
  /-- `_device->isConnected()` -/
  isConnected : Bool
  /-- result of `_device->reconnect()` (consulted only when disconnected) -/
  reconnectStatus : ReconnectStatus
  /-- `_device->mqttConnected()` as read at the top-level check -/
  mqttConnected : Bool
  /-- transport answers for the inner `reconnect()` call -/
  reconn : ReconnEnv
  /-- `_device->signalStrength()` (127 = unsupported) -/
  signalStrength : Int
  /-- `esp_get_free_heap_size()` -/
  freeHeap : Nat
  /-- `getRestartReason()` -/
  restartReasonFw : String
  /-- `getEspRestartReason()` -/
  restartReasonEsp : String
  /-- `_preferences->getBool(preference_check_updates)` -/
  checkUpdates : Bool
  /-- the HTTPS GET returned `HTTP_CODE_OK` or `HTTP_CODE_MOVED_PERMANENTLY` -/
  httpOk : Bool
  /-- `deserializeJson` succeeded -/
  jsonOk : Bool
  /-- `doc[tag_name]` of the release metadata -/
  tagName : String
  /-- `_preferences->getString(preference_latest_version)` -/
  storedLatestVersion : String
  /-- `digitalRead(pin) == HIGH` -/
  digitalReadHigh : Nat → Bool

/-- Steady-state tail of `Network::update` (lines 320-413): records the
last-connected tick, flushes the presence CSV staging slot, publishes
RSSI on change, the periodic maintenance block, the 24-hour update
check, and the GPIO debounce conversions, then returns `true`. -/
def NetworkState.updateTail (s : NetworkState) (env : UpdateEnv) (now : Nat)
    (effs : List Effect) : UpdateResult × NetworkState × List Effect :=
  let s := { s with lastConnectedTs := now }
  let (s, effs) :=
    match s.presenceCsv with
    | some csv =>
      if csv.length > 0 then
        ({ s with presenceCsv := none },
         effs ++ [publishStringEffect s.mqttPresencePath mqtt_topic_presence csv])
      else (s, effs)
    | none => (s, effs)
  let (s, effs) :=
    if env.signalStrength ≠ 127 ∧ s.rssiPublishInterval > 0 ∧
        sub32 now s.lastRssiTs > s.rssiPublishInterval then
      let s := { s with lastRssiTs := now }
      if env.signalStrength ≠ s.lastRssi then
        ({ s with lastRssi := env.signalStrength },
         effs ++ [publishIntEffect s.maintenancePath mqtt_topic_wifi_rssi env.signalStrength])
      else (s, effs)
    else (s, effs)
  let (s, effs) :=
    if s.lastMaintenanceTs = 0 ∨ sub32 now s.lastMaintenanceTs > 30000 then
      let effs := effs ++ [publishUIntEffect s.maintenancePath mqtt_topic_uptime (now / 1000 / 60)]
      let effs :=
        if s.publishDebugInfo then
          effs ++ [publishUIntEffect s.maintenancePath mqtt_topic_freeheap env.freeHeap,
                   publishStringEffect s.maintenancePath mqtt_topic_restart_reason_fw env.restartReasonFw,
                   publishStringEffect s.maintenancePath mqtt_topic_restart_reason_esp env.restartReasonEsp]
        else effs
      let (s, effs) :=
        if !s.versionPublished then
          ({ s with versionPublished := true },
           effs ++ [publishStringEffect s.maintenancePath mqtt_topic_info_nuki_hub_version NUKI_HUB_VERSION])
        else (s, effs)
      ({ s with lastMaintenanceTs := now }, effs)
    else (s, effs)
  let (s, effs) :=
    if env.checkUpdates then
      if s.lastUpdateCheckTs = 0 ∨ sub32 now s.lastUpdateCheckTs > 86400000 then
        let s := { s with lastUpdateCheckTs := now }
        let effs := effs ++ [Effect.httpGetLatestRelease]
        if env.httpOk ∧ env.jsonOk then
          let s := { s with latestVersion := env.tagName }
          let effs := effs ++
            [publishStringEffect s.maintenancePath mqtt_topic_info_nuki_hub_latest env.tagName]
          if env.tagName ≠ env.storedLatestVersion then
            (s, effs ++ [Effect.putLatestVersion env.tagName])
          else (s, effs)
        else (s, effs)
      else (s, effs)
    else (s, effs)
  let fired : Nat × Nat → Bool := fun pt =>
    pt.2 ≠ 0 && decide (sub32 now pt.2 ≥ GPIO_DEBOUNCE_TIME)
  let gpioEffs := s.gpioTs.filterMap (fun pt =>
    if fired pt then
      some (publishIntEffect s.lockPath
        (buildMqttPath [mqtt_topic_gpio_pre, mqtt_topic_gpio_pin ++ toString pt.1,
                        mqtt_topic_gpio_state])
        (if env.digitalReadHigh pt.1 then 1 else 0))
    else none)
  (UpdateResult.returned true,
   { s with gpioTs := s.gpioTs.map (fun pt => if fired pt then (pt.1, 0) else pt) },
   effs ++ gpioEffs)

/-- The `if(!_device->mqttConnected())` block of `Network::update`
(lines 304-318): network-timeout watchdog, then the MQTT reconnection
protocol; on failure `update` returns `false`, otherwise execution falls
through to the steady-state tail. -/
def NetworkState.updateMqttPhase (s : NetworkState) (env : UpdateEnv) (now : Nat)
    (effs : List Effect) : UpdateResult × NetworkState × List Effect :=
  if !env.mqttConnected then
    if 0 < s.networkTimeout ∧ sub32 now s.lastConnectedTs > s.networkTimeout.toNat * 1000 ∧
        now > 60000 then
      (UpdateResult.restarted RestartReason.NetworkTimeoutWatchdog, s, effs)
    else
      let r := s.reconnect env.reconn now
      if !r.1 then (UpdateResult.returned false, r.2.1, effs ++ r.2.2)
      else r.2.1.updateTail env now (effs ++ r.2.2)
  else
    s.updateTail env now effs

/-- `Network::update()` (lines 264-414).  `now` is `millis()`; the
successive `millis()` reads within one tick are modelled by the same
value. -/
def NetworkState.update (s : NetworkState) (env : UpdateEnv) (now : Nat) :
    UpdateResult × NetworkState × List Effect :=
  let effs := [Effect.deviceUpdate]
  if !s.mqttEnabled then
    (UpdateResult.returned true, s, effs)
  else if !env.isConnected then
    if s.restartOnDisconnect ∧ now > 60000 then
      (UpdateResult.restarted RestartReason.RestartOnDisconnectWatchdog, s, effs)
    else
      let effs := effs ++ [Effect.deviceReconnect]
      match env.reconnectStatus with
      | ReconnectStatus.CriticalFailure =>
        (UpdateResult.restarted RestartReason.NetworkDeviceCriticalFailure,
         { s with fallbackDetect := "wifi_fallback" }, effs)
      | ReconnectStatus.Success =>
        NetworkState.updateMqttPhase { s with fallbackDetect := "" } env now effs
      | ReconnectStatus.Failure =>
        s.updateMqttPhase env now effs
  else
    s.updateMqttPhase env now effs

/-- Outcome of the device-type resolution in `Network::setupDevice`
(lines 56-117), together with the resulting content of the RTC-memory
fallback marker: either `restartEsp` with the no-Wi-Fi-fallback reason
(marker cleared first), or a selected `NetworkDeviceType`. -/
inductive SetupResult where
  | restarted (r : RestartReason)
  | selected (t : NetworkDeviceType)
deriving DecidableEq, Repr

/-- Device-type resolution of `Network::setupDevice`: `fallbackDetect` is
the C-string content of `WiFi_fallbackDetect`, `fallbackDisabled` is
`preference_network_wifi_fallback_disabled`, `hardwareDetect` is
`preference_network_hardware` (0 is rewritten to 1).  Returns the outcome
and the resulting marker content. -/
def setupDeviceResolve (fallbackDetect : String) (fallbackDisabled : Bool)
    (hardwareDetect : Int) : SetupResult × String :=
  let hw := if hardwareDetect = 0 then 1 else hardwareDetect
  if fallbackDetect = "wifi_fallback" then
    if fallbackDisabled then
      (SetupResult.restarted RestartReason.NetworkDeviceCriticalFailureNoWifiFallback, "")
    else
      (SetupResult.selected NetworkDeviceType.WiFi, fallbackDetect)
  else
    (SetupResult.selected <|
      if hw = 1 then NetworkDeviceType.WiFi
      else if hw = 2 then NetworkDeviceType.W5500
      else if hw = 3 then NetworkDeviceType.W5500
      else if hw = 4 then NetworkDeviceType.Olimex_LAN8720
      else if hw = 5 then NetworkDeviceType.WT32_LAN8720
      else if hw = 6 then NetworkDeviceType.M5STACK_PoESP32_Unit
      else if hw = 7 then NetworkDeviceType.LilyGO_T_ETH_POE
      else NetworkDeviceType.WiFi,
     fallbackDetect)

/-- Digit-accumulation loop of C `atoi`: consumes decimal digits, stops at
the first non-digit (including a NUL). -/
def atoiLoop : List Char → Nat → Nat
  | [], acc => acc
  | c :: cs, acc => if c.isDigit then atoiLoop cs (10 * acc + (c.toNat - 48)) else acc

/-- C `std::atoi` on a character sequence: skips leading whitespace, then
an optional sign, then decimal digits. -/
def atoi (s : List Char) : Int :=
  let s1 := s.dropWhile (fun c =>
    c = ' ' ∨ c = '\t' ∨ c = '\n' ∨ c = '\r' ∨ c = '\x0b' ∨ c = '\x0c')
  match s1 with
  | '-' :: rest => -(atoiLoop rest 0 : Int)
  | '+' :: rest => (atoiLoop rest 0 : Int)
  | _ => (atoiLoop s1 0 : Int)

/-- The bytes a C string read of a byte buffer yields: everything up to
the first NUL. -/
def cstrOf (l : List Nat) : List Nat :=
  l.takeWhile (fun b => b ≠ 0)

/-- `Network::parseGpioTopics`: if the topic starts with
`<lockPath>/gpio/pin_`, extract the one- or two-digit pin number that
follows (the second character is taken only when it is not `/`), and if
that pin's configured role is `GeneralOutput`, drive it: payload
comparing equal (as a C string) to `"1"` gives `HIGH` (1), anything else
`LOW` (0).  `gpioRole` is the collaborator's `_gpio->getPinRole`. -/
def parseGpioTopics (s : NetworkState) (gpioRole : Int → PinRole) (topic : String)
    (payload : List Nat) : List Effect :=
  let gpioPath := buildMqttPath [s.lockPath, mqtt_topic_gpio_pre, mqtt_topic_gpio_pin]
  let gpioLen := gpioPath.length
  -- strncmp(gpioPath, topic, gpioLen) == 0
  if topic.data.take gpioLen = gpioPath.data then
    let pinStr : List Char :=
      if charAt topic (gpioLen + 1) ≠ '/' then
        [charAt topic gpioLen, charAt topic (gpioLen + 1)]
      else
        [charAt topic gpioLen]
    let pin := atoi pinStr
    if gpioRole pin = PinRole.GeneralOutput then
      let pinState : Nat := if cstrOf payload = [49] then 1 else 0
      [Effect.digitalWrite pin pinState]
    else []
  else []

set_option linter.unusedVariables false in
/-- `Network::onMqttDataReceived`: GPIO-output interception always runs;
then, unless still inside the post-(re)connect quiet window
(`millis() < _ignoreSubscriptionsTs`), every registered receiver is
notified in registration order — with the (already truncated) payload
buffer and the message's `index` as the third argument.  `len` and
`total` are accepted (matching the source signature) but not consulted:
the receivers are handed `index`. -/
def onMqttDataReceived (s : NetworkState) (gpioRole : Int → PinRole) (now : Nat)
    (topic : String) (payload : List Nat) (len index total : Nat) : List Effect :=
  parseGpioTopics s gpioRole topic payload
    ++ (if now < s.ignoreSubscriptionsTs then []
        else (List.range s.numReceivers).map
          (fun i => Effect.notifyReceiver i topic payload index))

/-- The static trampoline `Network::onMqttDataReceivedCallback`: copies at
most the first `min(len, 49)` payload bytes into a 50-byte zeroed
buffer, then forwards to `onMqttDataReceived` with `len`, `index` and
`total` unchanged (of which the dispatch uses `index`).  The C
precondition is `payload.length = len`. -/
def onMqttDataReceivedCallback (s : NetworkState) (gpioRole : Int → PinRole)
    (now : Nat) (topic : String) (payload : List Nat) (len index total : Nat) :
    List Effect :=
  let l := min len (50 - 1)
  let value := payload.take l ++ List.replicate (50 - l) 0
  onMqttDataReceived s gpioRole now topic value len index total

/-- The truncated buffer the trampoline builds, as a standalone function
(for stating claims about it). -/
def truncatedBuffer (payload : List Nat) (len : Nat) : List Nat :=
  payload.take (min len 49) ++ List.replicate (50 - min len 49) 0

/-! Helper observers and traces used only by the statements below. -/

/-- Number of `/` characters in a string. -/
def slashCount (s : String) : Nat :=
  s.data.count '/'

/-- The topic paths `reconnect()` publishes through `publishString` on a
successful connect (device name, online marker, local IP) — all under
the maintenance path, hence disjoint from lock-side init topics. -/
def maintPublishPaths (s : NetworkState) : List String :=
  [buildMqttPath [s.maintenancePath, mqtt_topic_network_device],
   buildMqttPath [s.maintenancePath, mqtt_topic_mqtt_connection_state],
   buildMqttPath [s.maintenancePath, mqtt_topic_info_nuki_hub_ip]]

/-- A sequence of `reconnect()` calls (one per list entry, with that
call's transport answers and entry time), returning for each call its
boolean result and the transport calls it made. -/
def runReconnects (s : NetworkState) : List (ReconnEnv × Nat) → List (Bool × List Effect)
  | [] => []
  | (env, now) :: rest =>
    let r := s.reconnect env now
    (r.1, r.2.2) :: runReconnects r.2.1 rest

/-- A sequence of `update()` calls, returning for each its outcome and
the effects it produced. -/
def runUpdates (s : NetworkState) : List (UpdateEnv × Nat) → List (UpdateResult × List Effect)
  | [] => []
  | (env, now) :: rest =>
    let r := s.update env now
    (r.1, r.2.2) :: runUpdates r.2.1 rest

/-- The `(topic, qos)` arguments of the `mqttSubscribe` transport calls in
an effect list, in order. -/
def subscribeArgs (effs : List Effect) : List (String × Nat) :=
  effs.filterMap fun e =>
    match e with
    | Effect.mqttSubscribe t q => some (t, q)
    | _ => none

/-- The payload buffers handed to receivers in an effect list. -/
def notifyPayloads (effs : List Effect) : List (List Nat) :=
  effs.filterMap fun e =>
    match e with
    | Effect.notifyReceiver _ _ p _ => some p
    | _ => none

/-- The length-metadata arguments handed to receivers in an effect list. -/
def notifyLenArgs (effs : List Effect) : List Nat :=
  effs.filterMap fun e =>
    match e with
    | Effect.notifyReceiver _ _ _ l => some l
    | _ => none

/-- Whether an effect list notifies any receiver. -/
def notifiesReceiver (effs : List Effect) : Bool :=
  effs.any fun e =>
    match e with
    | Effect.notifyReceiver _ _ _ _ => true
    | _ => false

/-- The GPIO state-path pattern `parseGpioTopics` matches against:
`<lockPath>/gpio/pin_`. -/
def gpioPathOf (s : NetworkState) : String :=
  buildMqttPath [s.lockPath, mqtt_topic_gpio_pre, mqtt_topic_gpio_pin]

/-- The pin number `parseGpioTopics` extracts from a matching topic. -/
def gpioPinOf (s : NetworkState) (topic : String) : Int :=
  let gpioLen := (gpioPathOf s).length
  atoi (if charAt topic (gpioLen + 1) ≠ '/' then
          [charAt topic gpioLen, charAt topic (gpioLen + 1)]
        else
          [charAt topic gpioLen])

/-- A concrete, fully configured network state used by the concrete
instances below: broker configured, two subscribed topics, one init
topic, one registered receiver and one reconnected callback. -/
def baseState : NetworkState where
  mqttEnabled := true
  restartOnDisconnect := false
  networkTimeout := 30
  lastConnectedTs := 0
  nextReconnect := 0
  mqttConnectionState := 0
  firstConnect := true
  subscribedTopics := ["nuki_t/gpio/pin_17/state", "nuki_t/lock/action"]
  initTopics := [("nuki_t/lock/state", "locked")]
  ignoreSubscriptionsTs := 0
  mqttBrokerAddr := "broker.local"
  brokerPort := 1883
  mqttUser := ""
  mqttPass := ""
  mqttConnectionStateTopic := "nuki_t/mqtt_connection_state"
  lastWillPayload := "offline"
  maintenancePath := "nuki_t/maintenance"
  mqttPresencePath := "nuki_t/presence"
  lockPath := "nuki_t"
  numReceivers := 1
  numReconnectedCallbacks := 1
  fallbackDetect := ""
  presenceCsv := none
  rssiPublishInterval := 60
  lastRssiTs := 0
  lastRssi := 127
  lastMaintenanceTs := 5
  publishDebugInfo := false
  versionPublished := true
  lastUpdateCheckTs := 5
  latestVersion := ""
  gpioTs := []

/-- A concrete transport answer set for a successful handshake. -/
def okReconnEnv : ReconnEnv where
  mqttConnectedAtEntry := false
  handshakeConnected := true
  nowAfterWait := 1200
  deviceName := "Wi-Fi"
  localIP := "10.0.0.2"

/-- A concrete environment for one `update()` tick: transport connected,
MQTT down, handshake failing (claims instantiate the fields they need). -/
def baseUpdateEnv : UpdateEnv where
  isConnected := true
  reconnectStatus := ReconnectStatus.Failure
  mqttConnected := false
  reconn := { okReconnEnv with handshakeConnected := false }
  signalStrength := 127
  freeHeap := 1000
  restartReasonFw := "fw"
  restartReasonEsp := "esp"
  checkUpdates := false
  httpOk := false
  jsonOk := false
  tagName := ""
  storedLatestVersion := ""
  digitalReadHigh := fun _ => false

/-! ## Theorems -/

/-- C6: when the configured broker address is the empty string and the
retry-backoff deadline has passed (and MQTT is not already connected, the
only situation in which `update()` calls `reconnect()`), `reconnect()`
returns false immediately, sets the next-retry deadline to now+5000 ms,
and performs no transport call at all — in particular no
`mqttSetCredentials`, `setWill`, `mqttSetServer` or `mqttConnect`. -/
theorem reconnect_empty_broker_aborts (s : NetworkState) (env : ReconnEnv) (now : Nat)
    (hentry : env.mqttConnectedAtEntry = false)
    (hdeadline : now > s.nextReconnect)
    (hbroker : s.mqttBrokerAddr = "") :
    (s.reconnect env now).1 = false ∧
      (s.reconnect env now).2.1.nextReconnect = now + 5000 ∧
      (s.reconnect env now).2.2 = [] := by
  simp [NetworkState.reconnect, hentry, hbroker, hdeadline]

/-- Witness for C6 at a concrete input. -/
theorem reconnect_empty_broker_aborts_witness :
    ({ baseState with mqttBrokerAddr := "" }.reconnect okReconnEnv 1000).1 = false ∧
      ({ baseState with mqttBrokerAddr := "" }.reconnect okReconnEnv 1000).2.1.nextReconnect = 6000 ∧
      ({ baseState with mqttBrokerAddr := "" }.reconnect okReconnEnv 1000).2.2 = [] :=
  reconnect_empty_broker_aborts { baseState with mqttBrokerAddr := "" } okReconnEnv 1000
    (by decide) (by decide) (by decide)

/-- C8: on a failed MQTT connection attempt (handshake not completed when
the wait ends), `reconnect()` reports failure, sets the connection state
to Disconnected (0), sets the next-retry deadline 5000 ms past the
current time, and its final transport call is `mqttDisconnect(force =
true)` — forcing the MQTT layer to a clean disconnected state before any
retry. -/
theorem reconnect_failure_resets (s : NetworkState) (env : ReconnEnv) (now : Nat)
    (hentry : env.mqttConnectedAtEntry = false)
    (hdeadline : now > s.nextReconnect)
    (hbroker : s.mqttBrokerAddr ≠ "")
    (hfail : env.handshakeConnected = false) :
    (s.reconnect env now).1 = false ∧
      (s.reconnect env now).2.1.mqttConnectionState = 0 ∧
      (s.reconnect env now).2.1.nextReconnect = env.nowAfterWait + 5000 ∧
      (s.reconnect env now).2.2.getLast? = some (Effect.mqttDisconnect true) := by
  simp [NetworkState.reconnect, hentry, hbroker, hdeadline, hfail]

/-- Witness for C8 at a concrete input. -/
theorem reconnect_failure_resets_witness :
    (baseState.reconnect { okReconnEnv with handshakeConnected := false } 1000).1 = false ∧
      (baseState.reconnect { okReconnEnv with handshakeConnected := false } 1000).2.1.mqttConnectionState = 0 ∧
      (baseState.reconnect { okReconnEnv with handshakeConnected := false } 1000).2.1.nextReconnect = 6200 ∧
      (baseState.reconnect { okReconnEnv with handshakeConnected := false } 1000).2.2.getLast?
        = some (Effect.mqttDisconnect true) :=
  reconnect_failure_resets baseState { okReconnEnv with handshakeConnected := false } 1000
    (by decide) (by decide) (by decide) (by decide)

/-- After `disableMqtt()`, one `update()` call returns `true`, leaves the
state unchanged, and performs exactly the transport pump
`_device->update()` — no reconnection, no watchdog restart, no publish. -/
theorem update_after_disableMqtt (s : NetworkState) (env : UpdateEnv) (now : Nat) :
    (s.disableMqtt.1).update env now
      = (UpdateResult.returned true, s.disableMqtt.1, [Effect.deviceUpdate]) := by
  simp [NetworkState.disableMqtt, NetworkState.update]

/-- C10: after `disableMqtt()` has been called, every subsequent
`update()` call (arbitrarily many, with arbitrary transport answers and
times) returns `true` and produces only the transport pump effect: no
reconnection attempt, no restart, no publishing. -/
theorem updates_after_disableMqtt_no_effect (s : NetworkState)
    (steps : List (UpdateEnv × Nat)) :
    runUpdates s.disableMqtt.1 steps
      = steps.map (fun _ => (UpdateResult.returned true, [Effect.deviceUpdate])) := by
  induction steps with
  | nil => rfl
  | cons step rest ih =>
    obtain ⟨env, now⟩ := step
    simp only [runReconnects, runUpdates, update_after_disableMqtt, List.map_cons]
    exact congrArg _ ih

/-- C1, counterexample: in the claimed scenario — broker configured,
transport connected, MQTT down, network-timeout preference 30 s, uptime
45000 ms, last tick with MQTT connected 46000 ms ago (in 32-bit
`millis()` arithmetic) — `update()` does NOT restart: it returns `false`
after a failed reconnection attempt, because the network-timeout
watchdog additionally requires uptime above 60000 ms
(`ts > 60000` at line 306). -/
theorem c1_scenario_no_restart_at_45000 :
    (baseState.networkTimeout = 30 ∧ baseState.mqttBrokerAddr ≠ "" ∧
      baseUpdateEnv.isConnected = true ∧ baseUpdateEnv.mqttConnected = false ∧
      sub32 45000 (2 ^ 32 - 1000) = 46000) ∧
    ({ baseState with lastConnectedTs := 2 ^ 32 - 1000 }.update baseUpdateEnv 45000).1
      = UpdateResult.returned false ∧
    ({ baseState with lastConnectedTs := 2 ^ 32 - 1000 }.update baseUpdateEnv 45000).1
      ≠ UpdateResult.restarted RestartReason.NetworkTimeoutWatchdog := by
  refine ⟨⟨rfl, by decide, rfl, rfl, by decide⟩, by decide, by decide⟩

/-- C1 as amended: in the claimed scenario (broker configured, transport
connected, MQTT down, positive network-timeout preference, last
MQTT-connected tick more than the timeout ago) `update()` restarts with
the network-timeout watchdog reason code, provided uptime also exceeds
the 60 s boot grace period. -/
theorem update_network_timeout_restart (s : NetworkState) (env : UpdateEnv) (now : Nat)
    (hen : s.mqttEnabled = true)
    (hconn : env.isConnected = true)
    (hmqtt : env.mqttConnected = false)
    (htmo : 0 < s.networkTimeout)
    (helapsed : sub32 now s.lastConnectedTs > s.networkTimeout.toNat * 1000)
    (hgrace : now > 60000) :
    (s.update env now).1 = UpdateResult.restarted RestartReason.NetworkTimeoutWatchdog := by
  simp [NetworkState.update, NetworkState.updateMqttPhase, hen, hconn, hmqtt, htmo,
    helapsed, hgrace]

/-- Witness for the amended C1 at a concrete input: uptime 106000 ms,
last MQTT-connected tick 46000 ms ago, timeout preference 30 s. -/
theorem update_network_timeout_restart_witness :
    ({ baseState with lastConnectedTs := 60000 }.update baseUpdateEnv 106000).1
      = UpdateResult.restarted RestartReason.NetworkTimeoutWatchdog :=
  update_network_timeout_restart { baseState with lastConnectedTs := 60000 }
    baseUpdateEnv 106000 rfl rfl rfl (by decide) (by decide) (by decide)

/-- C7: if the transport's `reconnect()` reports `CriticalFailure` during
`update()` (transport disconnected, restart-on-disconnect watchdog not
triggering), the reboot-surviving fallback marker is set to
`"wifi_fallback"` and the device restarts with the critical-failure
reason; on the next boot, with that marker present and the
Wi-Fi-fallback-disabled preference false, device selection resolves to
the Wi-Fi transport regardless of the persisted hardware type. -/
theorem update_critical_failure_fallback (s : NetworkState) (env : UpdateEnv) (now : Nat)
    (hen : s.mqttEnabled = true)
    (hconn : env.isConnected = false)
    (hnd : ¬(s.restartOnDisconnect ∧ now > 60000))
    (hcrit : env.reconnectStatus = ReconnectStatus.CriticalFailure) :
    (s.update env now).1 = UpdateResult.restarted RestartReason.NetworkDeviceCriticalFailure ∧
      (s.update env now).2.1.fallbackDetect = "wifi_fallback" ∧
      ∀ hardwareDetect : Int,
        (setupDeviceResolve (s.update env now).2.1.fallbackDetect false hardwareDetect).1
          = SetupResult.selected NetworkDeviceType.WiFi := by
  refine ⟨?_, ?_, ?_⟩ <;>
    simp [NetworkState.update, hen, hconn, hnd, hcrit, setupDeviceResolve]

/-- Witness for C7 at a concrete input (persisted hardware type 5 =
WT32-ETH01; the fallback still resolves to Wi-Fi). -/
theorem update_critical_failure_fallback_witness :
    (baseState.update
        { baseUpdateEnv with isConnected := false,
                             reconnectStatus := ReconnectStatus.CriticalFailure } 1000).1
      = UpdateResult.restarted RestartReason.NetworkDeviceCriticalFailure ∧
    (baseState.update
        { baseUpdateEnv with isConnected := false,
                             reconnectStatus := ReconnectStatus.CriticalFailure } 1000).2.1.fallbackDetect
      = "wifi_fallback" ∧
    (setupDeviceResolve
        (baseState.update
          { baseUpdateEnv with isConnected := false,
                               reconnectStatus := ReconnectStatus.CriticalFailure } 1000).2.1.fallbackDetect
        false 5).1
      = SetupResult.selected NetworkDeviceType.WiFi := by
  have h := update_critical_failure_fallback baseState
    { baseUpdateEnv with isConnected := false,
                         reconnectStatus := ReconnectStatus.CriticalFailure } 1000
    rfl rfl (by decide) rfl
  exact ⟨h.1, h.2.1, h.2.2 5⟩

/-- `subscribeArgs` distributes over list append. -/
theorem subscribeArgs_append (a b : List Effect) :
    subscribeArgs (a ++ b) = subscribeArgs a ++ subscribeArgs b := by
  simp [subscribeArgs, List.filterMap_append]

/-- `subscribeArgs` of the empty effect list. -/
theorem subscribeArgs_nil : subscribeArgs [] = [] := rfl

/-- `subscribeArgs` peels one effect off the front. -/
theorem subscribeArgs_cons (e : Effect) (l : List Effect) :
    subscribeArgs (e :: l)
      = (match e with
          | Effect.mqttSubscribe t q => [(t, q)]
          | _ => []) ++ subscribeArgs l := by
  cases e <;> simp [subscribeArgs, List.filterMap_cons]

/-- The subscription-replay loop contributes exactly the topic set with
the fixed QoS. -/
theorem subscribeArgs_map_subscribe (ts : List String) (q : Nat) :
    subscribeArgs (ts.map fun t => Effect.mqttSubscribe t q) = ts.map fun t => (t, q) := by
  induction ts with
  | nil => rfl
  | cons t ts ih => simpa [subscribeArgs, List.filterMap_cons] using ih

/-- Publish effects contribute no subscriptions. -/
theorem subscribeArgs_map_publish (its : List (String × String)) (q : Nat) :
    subscribeArgs (its.map fun it => Effect.mqttPublish it.1 q true it.2) = [] := by
  simp [subscribeArgs, List.filterMap_cons]

/-- Reconnect-listener invocations contribute no subscriptions. -/
theorem subscribeArgs_map_invoke (ns : List Nat) :
    subscribeArgs (ns.map Effect.invokeReconnectedCallback) = [] := by
  simp [subscribeArgs, List.filterMap_cons]

/-- C4: on every successful (re)connect, the `mqttSubscribe` transport
calls made by `reconnect()` are exactly the entries of the Subscribed
Topic Set, in original insertion order, each at the fixed QoS level —
no omissions and no duplicates beyond what `subscribe()` inserted. -/
theorem reconnect_resubscribes_all (s : NetworkState) (env : ReconnEnv) (now : Nat)
    (hentry : env.mqttConnectedAtEntry = false)
    (hdeadline : now > s.nextReconnect)
    (hbroker : s.mqttBrokerAddr ≠ "")
    (hok : env.handshakeConnected = true) :
    subscribeArgs (s.reconnect env now).2.2
      = s.subscribedTopics.map (fun t => (t, MQTT_QOS_LEVEL)) := by
  by_cases hu : s.mqttUser.length = 0 <;> by_cases hf : s.firstConnect <;>
    simp [NetworkState.reconnect, hentry, hbroker, hdeadline, hok, hu, hf,
      publishStringEffect, subscribeArgs_append, subscribeArgs_map_subscribe,
      subscribeArgs_map_publish, subscribeArgs_map_invoke, subscribeArgs_cons,
      subscribeArgs_nil]

/-- Witness for C4 at a concrete input: both accumulated topics are
resubscribed, in order, at the fixed QoS. -/
theorem reconnect_resubscribes_all_witness :
    subscribeArgs (baseState.reconnect okReconnEnv 1000).2.2
      = [("nuki_t/gpio/pin_17/state", 1), ("nuki_t/lock/action", 1)] :=
  (reconnect_resubscribes_all baseState okReconnEnv 1000 rfl (by decide) (by decide)
    rfl).trans (by decide)

/-- C5, counterexample: the Topic Path Builder does NOT insert exactly
one separator between adjacent fragments regardless of existing leading
separators — when the latter fragment already starts with `/` it inserts
none: joining `"a"` and `"/b"` yields `"a/b"` with one slash in total,
not the two the claim predicts. -/
theorem buildMqttPath_not_always_inserting :
    buildMqttPath ["a", "/b"] = "a/b" ∧
      slashCount (buildMqttPath ["a", "/b"]) ≠ slashCount "a" + slashCount "/b" + 1 := by
  exact ⟨by decide, by decide⟩

/-- The `pathCount` argument of `buildMqttPath.go` only matters through
being zero or positive. -/
theorem buildMqttPath_go_pos (ps : List String) (n m : Nat) (hn : 0 < n) (hm : 0 < m) :
    buildMqttPath.go ps n = buildMqttPath.go ps m := by
  induction ps generalizing n m with
  | nil => rfl
  | cons q qs ih =>
    simp only [buildMqttPath.go, hn, hm, true_and]
    rw [ih (n + 1) (m + 1) (Nat.succ_pos n) (Nat.succ_pos m)]

/-- Slash counting distributes over string append. -/
theorem slashCount_append (s t : String) :
    slashCount (s ++ t) = slashCount s + slashCount t := by
  simp [slashCount, String.data_append, List.count_append]

/-- Slash count of the continuation fragments: each non-first fragment
contributes its own slashes, plus one inserted separator exactly when it
does not already start with `/`. -/
theorem slashCount_go_one (ps : List String) :
    slashCount (buildMqttPath.go ps 1)
      = (ps.map fun q => slashCount q + if charAt q 0 = '/' then 0 else 1).sum := by
  induction ps with
  | nil => rfl
  | cons q qs ih =>
    have h2 : buildMqttPath.go qs 2 = buildMqttPath.go qs 1 :=
      buildMqttPath_go_pos qs 2 1 (by omega) (by omega)
    by_cases hq : charAt q 0 = '/'
    · simp only [buildMqttPath.go]
      rw [if_neg (by simp [hq])]
      simp only [h2, slashCount_append, ih, List.map_cons, List.sum_cons, hq, if_pos]
      omega
    · simp only [buildMqttPath.go]
      rw [if_pos ⟨by omega, hq⟩]
      have hone : slashCount ("/" ++ q) = 1 + slashCount q := by
        simp [slashCount, String.data_append, List.count_cons]
        omega
      rw [slashCount_append] at hone
      simp only [h2, slashCount_append, hone, ih, List.map_cons, List.sum_cons,
        if_neg hq]
      omega

/-- C5 as amended: the Topic Path Builder inserts exactly one `/` between
adjacent fragments unless the latter fragment already starts with `/`
(in which case it inserts none); it does not deduplicate separators
already present in the fragments, so a fragment with a trailing `/`
yields consecutive separators.  Re-joining its own (single-string)
output yields the same path. -/
theorem buildMqttPath_separators (p : String) (ps : List String) (l : List String) :
    slashCount (buildMqttPath (p :: ps))
        = slashCount p
          + (ps.map fun q => slashCount q + if charAt q 0 = '/' then 0 else 1).sum ∧
      buildMqttPath [buildMqttPath l] = buildMqttPath l := by
  constructor
  · have hsplit : buildMqttPath (p :: ps) = p ++ buildMqttPath.go ps 1 := by
      simp [buildMqttPath, buildMqttPath.go]
    rw [hsplit, slashCount_append, slashCount_go_one]
  · show (if (0 : Nat) > 0 ∧ charAt (buildMqttPath l) 0 ≠ '/' then "/" ++ buildMqttPath l
      else buildMqttPath l) ++ buildMqttPath.go [] 1 = buildMqttPath l
    rw [if_neg (by omega), buildMqttPath.go, String.append_empty]

/-- GPIO-output interception never notifies a receiver: `parseGpioTopics`
produces at most a `digitalWrite`. -/
theorem parseGpioTopics_no_notify (s : NetworkState) (gpioRole : Int → PinRole)
    (topic : String) (payload : List Nat) :
    notifiesReceiver (parseGpioTopics s gpioRole topic payload) = false := by
  simp only [parseGpioTopics]
  repeat' split
  all_goals rfl

/-- C3: an inbound message arriving while the current time is inside the
post-(re)connect quiet window (`now < _ignoreSubscriptionsTs`) notifies
no registered receiver; but if its topic matches the GPIO state-path
pattern and the parsed pin is configured with the output role, the pin
is still driven — payload `"1"` (the single byte 49) as logic-high 1,
anything else as logic-low 0. -/
theorem quiet_window_gpio_still_driven (s : NetworkState) (gpioRole : Int → PinRole)
    (now : Nat) (topic : String) (payload : List Nat) (len index total : Nat)
    (hquiet : now < s.ignoreSubscriptionsTs) :
    notifiesReceiver (onMqttDataReceivedCallback s gpioRole now topic payload len index total)
        = false ∧
      (topic.data.take (gpioPathOf s).length = (gpioPathOf s).data →
        gpioRole (gpioPinOf s topic) = PinRole.GeneralOutput →
        onMqttDataReceivedCallback s gpioRole now topic payload len index total
          = [Effect.digitalWrite (gpioPinOf s topic)
              (if cstrOf (truncatedBuffer payload len) = [49] then 1 else 0)]) := by
  constructor
  · simp only [onMqttDataReceivedCallback, onMqttDataReceived, if_pos hquiet,
      List.append_nil]
    exact parseGpioTopics_no_notify s gpioRole topic _
  · intro hmatch hrole
    have hm : topic.data.take
          (buildMqttPath [s.lockPath, mqtt_topic_gpio_pre, mqtt_topic_gpio_pin]).length
        = (buildMqttPath [s.lockPath, mqtt_topic_gpio_pre, mqtt_topic_gpio_pin]).data := by
      simpa [gpioPathOf] using hmatch
    have hr := hrole
    simp only [gpioPinOf, gpioPathOf] at hr
    simp only [onMqttDataReceivedCallback, onMqttDataReceived, if_pos hquiet,
      List.append_nil, parseGpioTopics, truncatedBuffer, gpioPinOf, gpioPathOf,
      hm, hr, if_pos, eq_self_iff_true, if_true]

/-- Witness for C3 at a concrete input: pin 17 configured as output,
quiet window still open, payload `"1"` drives the pin high while no
receiver is notified. -/
theorem quiet_window_gpio_still_driven_witness :
    notifiesReceiver (onMqttDataReceivedCallback
        { baseState with ignoreSubscriptionsTs := 2000 }
        (fun p => if p = 17 then PinRole.GeneralOutput else PinRole.Disabled)
        500 "nuki_t/gpio/pin_17/state" [49] 1 0 1) = false ∧
      onMqttDataReceivedCallback
        { baseState with ignoreSubscriptionsTs := 2000 }
        (fun p => if p = 17 then PinRole.GeneralOutput else PinRole.Disabled)
        500 "nuki_t/gpio/pin_17/state" [49] 1 0 1
        = [Effect.digitalWrite 17 1] := by
  have h := quiet_window_gpio_still_driven
    { baseState with ignoreSubscriptionsTs := 2000 }
    (fun p => if p = 17 then PinRole.GeneralOutput else PinRole.Disabled)
    500 "nuki_t/gpio/pin_17/state" [49] 1 0 1 (by decide)
  exact ⟨h.1, (h.2 (by decide) (by decide)).trans (by decide)⟩

/-- C9, counterexample: a 60-byte message delivered in one chunk
(`len = 60`, `index = 0`) reaches the single registered receiver with
length-metadata argument 0, not the full length 60 — `onMqttDataReceived`
hands receivers the chunk `index`, not `len`. -/
theorem receiver_metadata_not_full_length :
    notifyLenArgs (onMqttDataReceivedCallback baseState (fun _ => PinRole.Disabled) 500
        "some/topic" (List.replicate 60 65) 60 0 60) = [0] ∧ (0 : Nat) ≠ 60 := by
  exact ⟨by decide, by decide⟩

/-- `parseGpioTopics` hands nothing to receivers, so contributes no
length-metadata. -/
theorem notifyLenArgs_parseGpioTopics (s : NetworkState) (gpioRole : Int → PinRole)
    (topic : String) (payload : List Nat) :
    notifyLenArgs (parseGpioTopics s gpioRole topic payload) = [] := by
  simp only [parseGpioTopics]
  repeat' split
  all_goals rfl

/-- `notifyLenArgs` distributes over append. -/
theorem notifyLenArgs_append (a b : List Effect) :
    notifyLenArgs (a ++ b) = notifyLenArgs a ++ notifyLenArgs b := by
  simp [notifyLenArgs, List.filterMap_append]

/-- `notifyLenArgs` peels one effect off the front. -/
theorem notifyLenArgs_cons (e : Effect) (l : List Effect) :
    notifyLenArgs (e :: l)
      = (match e with
          | Effect.notifyReceiver _ _ _ m => [m]
          | _ => []) ++ notifyLenArgs l := by
  cases e <;> simp [notifyLenArgs, List.filterMap_cons]

/-- The receiver loop hands every receiver the same metadata argument. -/
theorem notifyLenArgs_map_notify (ns : List Nat) (t : String) (p : List Nat) (idx : Nat) :
    notifyLenArgs (ns.map fun i => Effect.notifyReceiver i t p idx)
      = ns.map fun _ => idx := by
  induction ns with
  | nil => rfl
  | cons n ns ih => simp [notifyLenArgs_cons, ih]

/-- C9 as amended: the payload buffer handed to internal GPIO parsing and
to registered receivers is the original payload truncated to its first
`min(len, 49)` bytes and zero-padded to exactly 50 bytes; the receivers
are handed the message's `index` metadata unchanged (the full length
`len` remains a parameter of the dispatch handler but is not itself
forwarded to receivers). -/
theorem payload_truncated_index_forwarded (s : NetworkState) (gpioRole : Int → PinRole)
    (now : Nat) (topic : String) (payload : List Nat) (len index total : Nat)
    (hlen : payload.length = len) :
    (onMqttDataReceivedCallback s gpioRole now topic payload len index total
        = onMqttDataReceived s gpioRole now topic (truncatedBuffer payload len)
            len index total) ∧
      (truncatedBuffer payload len).length = 50 ∧
      (truncatedBuffer payload len).take (min len 49) = payload.take (min len 49) ∧
      (truncatedBuffer payload len).drop (min len 49) = List.replicate (50 - min len 49) 0 ∧
      ∀ l ∈ notifyLenArgs (onMqttDataReceivedCallback s gpioRole now topic payload
          len index total), l = index := by
  refine ⟨by norm_num [onMqttDataReceivedCallback, truncatedBuffer], ?_, ?_, ?_, ?_⟩
  · simp [truncatedBuffer, hlen]
  · have htk : (payload.take (min len 49)).length = min len 49 := by
      simp [List.length_take, hlen]
    simp [truncatedBuffer, List.take_append, htk, List.take_take]
  · have htk : (payload.take (min len 49)).length = min len 49 := by
      simp [List.length_take, hlen]
    simp [truncatedBuffer, List.drop_append, htk]
  · intro l hl
    simp only [onMqttDataReceivedCallback, onMqttDataReceived, notifyLenArgs_append,
      notifyLenArgs_parseGpioTopics, List.nil_append] at hl
    split at hl
    · simp [notifyLenArgs] at hl
    · rw [notifyLenArgs_map_notify] at hl
      obtain ⟨i, _, hli⟩ := List.mem_map.mp hl
      exact hli.symm

/-- Witness for the amended C9 at a concrete input: a 60-byte payload is
cut to 49 bytes plus zero padding and the receiver gets metadata 0. -/
theorem payload_truncated_index_forwarded_witness :
    ((truncatedBuffer (List.replicate 60 65) 60).length = 50 ∧
      (truncatedBuffer (List.replicate 60 65) 60).take (min 60 49)
        = (List.replicate 60 65).take (min 60 49)) ∧
    ∀ l ∈ notifyLenArgs (onMqttDataReceivedCallback baseState (fun _ => PinRole.Disabled)
        500 "some/topic" (List.replicate 60 65) 60 0 60), l = 0 := by
  have h := payload_truncated_index_forwarded baseState (fun _ => PinRole.Disabled)
    500 "some/topic" (List.replicate 60 65) 60 0 60 (by decide)
  exact ⟨⟨h.2.1, h.2.2.1⟩, h.2.2.2.2⟩

/-- `reconnect()` never changes the Init Topic Map. -/
theorem reconnect_initTopics (s : NetworkState) (env : ReconnEnv) (now : Nat) :
    (s.reconnect env now).2.1.initTopics = s.initTopics := by
  simp only [NetworkState.reconnect]
  repeat' split
  all_goals rfl

/-- `reconnect()` never changes the maintenance path. -/
theorem reconnect_maintenancePath (s : NetworkState) (env : ReconnEnv) (now : Nat) :
    (s.reconnect env now).2.1.maintenancePath = s.maintenancePath := by
  simp only [NetworkState.reconnect]
  repeat' split
  all_goals rfl

/-- Once the first-connect flag is cleared it stays cleared across any
further `reconnect()` call. -/
theorem reconnect_firstConnect_false (s : NetworkState) (env : ReconnEnv) (now : Nat)
    (hfc : s.firstConnect = false) :
    (s.reconnect env now).2.1.firstConnect = false := by
  simp only [NetworkState.reconnect]
  repeat' split
  all_goals first | rfl | exact hfc

/-- A `reconnect()` call that does not reach the success branch (MQTT
already connected, backoff not expired, broker unconfigured, or
handshake failed) reports failure, leaves the first-connect flag
untouched, and publishes nothing. -/
theorem reconnect_no_success (s : NetworkState) (env : ReconnEnv) (now : Nat)
    (h : ¬(env.mqttConnectedAtEntry = false ∧ now > s.nextReconnect ∧
           s.mqttBrokerAddr ≠ "" ∧ env.handshakeConnected = true)) :
    (s.reconnect env now).1 = false ∧
      (s.reconnect env now).2.1.firstConnect = s.firstConnect ∧
      ∀ p q r w, Effect.mqttPublish p q r w ∉ (s.reconnect env now).2.2 := by
  by_cases h1 : env.mqttConnectedAtEntry = false
  · by_cases h2 : now > s.nextReconnect
    · by_cases h3 : s.mqttBrokerAddr = ""
      · simp [NetworkState.reconnect, h1, h2, h3]
      · have h4 : env.handshakeConnected = false := by
          rcases Bool.eq_false_or_eq_true env.handshakeConnected with hh | hh
          · exact absurd ⟨h1, h2, h3, hh⟩ h
          · exact hh
        by_cases hu : s.mqttUser.length = 0 <;>
          simp [NetworkState.reconnect, h1, h2, h3, h4, hu]
    · simp [NetworkState.reconnect, h1, h2]
  · have h1' : env.mqttConnectedAtEntry = true := by
      rcases Bool.eq_false_or_eq_true env.mqttConnectedAtEntry with hh | hh
      · exact hh
      · exact absurd hh h1
    simp [NetworkState.reconnect, h1']

/-- Subscribe effects are never counted as publishes. -/
theorem count_pub_map_subscribe (ts : List String) (q : Nat) (k v : String)
    (qq : Nat) (r : Bool) :
    (ts.map fun t => Effect.mqttSubscribe t q).count (Effect.mqttPublish k qq r v) = 0 :=
  List.count_eq_zero.mpr (by simp)

/-- Callback-invocation effects are never counted as publishes. -/
theorem count_pub_map_invoke (ns : List Nat) (k v : String) (qq : Nat) (r : Bool) :
    (ns.map Effect.invokeReconnectedCallback).count (Effect.mqttPublish k qq r v) = 0 :=
  List.count_eq_zero.mpr (by simp)

/-- A successful `reconnect()` reports success, clears the first-connect
flag, and — for a topic `k` outside the maintenance publish paths — its
publish effects at `(k, v)` are exactly the Init Topic Map replay,
which runs only when the first-connect flag was still set. -/
theorem reconnect_success_initPub_count (s : NetworkState) (env : ReconnEnv) (now : Nat)
    (k v : String)
    (h1 : env.mqttConnectedAtEntry = false)
    (h2 : now > s.nextReconnect)
    (h3 : s.mqttBrokerAddr ≠ "")
    (h4 : env.handshakeConnected = true)
    (hk : k ∉ maintPublishPaths s) :
    (s.reconnect env now).1 = true ∧
      (s.reconnect env now).2.1.firstConnect = false ∧
      ((s.reconnect env now).2.2).count (Effect.mqttPublish k MQTT_QOS_LEVEL true v)
        = if s.firstConnect = true then
            (s.initTopics.map fun it => Effect.mqttPublish it.1 MQTT_QOS_LEVEL true it.2).count
              (Effect.mqttPublish k MQTT_QOS_LEVEL true v)
          else 0 := by
  simp only [maintPublishPaths, List.mem_cons, List.not_mem_nil, or_false, not_or] at hk
  obtain ⟨hk1, hk2, hk3⟩ := hk
  refine ⟨?_, ?_, ?_⟩
  · simp [NetworkState.reconnect, h1, h2, h3, h4]
  · simp [NetworkState.reconnect, h1, h2, h3, h4]
  · by_cases hu : s.mqttUser.length = 0 <;> by_cases hf : s.firstConnect = true <;>
      simp [NetworkState.reconnect, h1, h2, h3, h4, hu, hf, publishStringEffect,
        List.count_append, List.count_cons, hk1, hk2, hk3,
        count_pub_map_subscribe, count_pub_map_invoke]

/-- The Init Topic Map replay publishes an entry `(k, v)` of the map
exactly once, provided the map's keys are distinct. -/
theorem count_initPub_map (its : List (String × String)) (k v : String)
    (hmem : (k, v) ∈ its) (hnodup : (its.map Prod.fst).Nodup) :
    (its.map fun it => Effect.mqttPublish it.1 MQTT_QOS_LEVEL true it.2).count
      (Effect.mqttPublish k MQTT_QOS_LEVEL true v) = 1 := by
  induction its with
  | nil => simp at hmem
  | cons it its ih =>
    simp only [List.map_cons, List.nodup_cons] at hnodup
    obtain ⟨hnotin, hnd⟩ := hnodup
    rcases List.mem_cons.mp hmem with heq | hmemtl
    · obtain rfl : it = (k, v) := heq.symm
      have htl : Effect.mqttPublish k MQTT_QOS_LEVEL true v
          ∉ its.map fun it => Effect.mqttPublish it.1 MQTT_QOS_LEVEL true it.2 := by
        intro hmm
        obtain ⟨a, ha, haeq⟩ := List.mem_map.mp hmm
        have : a.1 = k := by
          injection haeq
        exact hnotin (this ▸ List.mem_map.mpr ⟨a, ha, rfl⟩)
      simp [List.count_cons, List.count_eq_zero.mpr htl]
    · have hk1 : ¬(k = it.1) := by
        intro hkeq
        exact hnotin (hkeq ▸ List.mem_map.mpr ⟨(k, v), hmemtl, rfl⟩)
      simp [List.count_cons, ih hmemtl hnd, hk1]

/-- With the first-connect flag cleared, no `reconnect()` call publishes
to a topic outside the maintenance publish paths. -/
theorem reconnect_notFirst_no_initPub (s : NetworkState) (env : ReconnEnv) (now : Nat)
    (k v : String)
    (hfc : s.firstConnect = false)
    (hk : k ∉ maintPublishPaths s) :
    Effect.mqttPublish k MQTT_QOS_LEVEL true v ∉ (s.reconnect env now).2.2 := by
  by_cases hsucc : env.mqttConnectedAtEntry = false ∧ now > s.nextReconnect ∧
      s.mqttBrokerAddr ≠ "" ∧ env.handshakeConnected = true
  · obtain ⟨h1, h2, h3, h4⟩ := hsucc
    have h := (reconnect_success_initPub_count s env now k v h1 h2 h3 h4 hk).2.2
    rw [if_neg (by simp [hfc])] at h
    exact List.count_eq_zero.mp h
  · exact (reconnect_no_success s env now hsucc).2.2 k MQTT_QOS_LEVEL true v

/-- With the first-connect flag cleared, an arbitrarily long sequence of
further `reconnect()` calls never publishes to a topic outside the
maintenance publish paths. -/
theorem runReconnects_notFirst_no_initPub (steps : List (ReconnEnv × Nat))
    (s : NetworkState) (k v : String)
    (hfc : s.firstConnect = false)
    (hk : k ∉ maintPublishPaths s) :
    ∀ r ∈ runReconnects s steps, Effect.mqttPublish k MQTT_QOS_LEVEL true v ∉ r.2 := by
  induction steps generalizing s with
  | nil => simp [runReconnects]
  | cons step rest ih =>
    obtain ⟨env, now⟩ := step
    intro r hr
    simp only [runReconnects, List.mem_cons] at hr
    rcases hr with rfl | hr
    · exact reconnect_notFirst_no_initPub s env now k v hfc hk
    · refine ih (s.reconnect env now).2.1
        (reconnect_firstConnect_false s env now hfc) ?_ r hr
      simpa [maintPublishPaths, reconnect_maintenancePath] using hk

/-- Joining effect lists that all avoid `e` yields count zero. -/
theorem count_join_zero (rs : List (Bool × List Effect)) (e : Effect)
    (h : ∀ r ∈ rs, e ∉ r.2) : ((rs.map Prod.snd).flatten).count e = 0 := by
  induction rs with
  | nil => rfl
  | cons r rs ih =>
    simp only [List.map_cons, List.flatten_cons, List.count_append]
    rw [List.count_eq_zero.mpr (h r (by simp)), ih (fun q hq => h q (by simp [hq]))]

/-- C2: starting from a state with the first-connect flag set, over any
sequence of `reconnect()` calls each entry `(k, v)` of the Init Topic
Map (keys distinct, and — as lock-side topics — outside the maintenance
publish paths) is published exactly once if some call succeeds and never
otherwise; moreover any call whose effects contain that publish is a
successful connect preceded only by failed ones — the first successful
connect after boot. -/
theorem initTopics_published_once (steps : List (ReconnEnv × Nat)) (s : NetworkState)
    (k v : String)
    (hfc : s.firstConnect = true)
    (hmem : (k, v) ∈ s.initTopics)
    (hnodup : (s.initTopics.map Prod.fst).Nodup)
    (hk : k ∉ maintPublishPaths s) :
    (((runReconnects s steps).map Prod.snd).flatten.count
        (Effect.mqttPublish k MQTT_QOS_LEVEL true v)
      = if ((runReconnects s steps).map Prod.fst).any id then 1 else 0) ∧
    ∀ pre r post, runReconnects s steps = pre ++ r :: post →
      Effect.mqttPublish k MQTT_QOS_LEVEL true v ∈ r.2 →
      r.1 = true ∧ ∀ q ∈ pre, q.1 = false := by
  induction steps generalizing s with
  | nil =>
    refine ⟨by simp [runReconnects], ?_⟩
    intro pre r post h
    simp only [runReconnects] at h
    exact absurd h (by cases pre <;> simp)
  | cons step rest ih =>
    obtain ⟨env, now⟩ := step
    have hkpres : k ∉ maintPublishPaths (s.reconnect env now).2.1 := by
      simpa [maintPublishPaths, reconnect_maintenancePath] using hk
    by_cases hsucc : env.mqttConnectedAtEntry = false ∧ now > s.nextReconnect ∧
        s.mqttBrokerAddr ≠ "" ∧ env.handshakeConnected = true
    · obtain ⟨h1, h2, h3, h4⟩ := hsucc
      have hsc := reconnect_success_initPub_count s env now k v h1 h2 h3 h4 hk
      have hcount1 : ((s.reconnect env now).2.2).count
          (Effect.mqttPublish k MQTT_QOS_LEVEL true v) = 1 := by
        rw [hsc.2.2, if_pos hfc, count_initPub_map s.initTopics k v hmem hnodup]
      have htail := runReconnects_notFirst_no_initPub rest (s.reconnect env now).2.1
        k v hsc.2.1 hkpres
      constructor
      · simp [runReconnects, List.count_append, hsc.1, hcount1,
          count_join_zero _ _ htail]
      · intro pre r post heq hpubmem
        cases pre with
        | nil =>
          simp only [runReconnects, List.nil_append, List.cons.injEq] at heq
          obtain ⟨h5, -⟩ := heq
          subst h5
          exact ⟨hsc.1, by simp⟩
        | cons p pre' =>
          simp only [runReconnects, List.cons_append, List.cons.injEq] at heq
          have hmemr : r ∈ runReconnects (s.reconnect env now).2.1 rest := by
            rw [heq.2]
            exact List.mem_append_right pre' (List.mem_cons_self r post)
          exact absurd hpubmem (htail r hmemr)
    · have hns := reconnect_no_success s env now hsucc
      have ih' := ih (s.reconnect env now).2.1
        (hns.2.1.trans hfc) (reconnect_initTopics s env now ▸ hmem)
        (reconnect_initTopics s env now ▸ hnodup) hkpres
      have hhead : ((s.reconnect env now).2.2).count
          (Effect.mqttPublish k MQTT_QOS_LEVEL true v) = 0 :=
        List.count_eq_zero.mpr (hns.2.2 k MQTT_QOS_LEVEL true v)
      constructor
      · simp only [runReconnects, List.map_cons, List.flatten_cons, List.count_append,
          List.any_cons, hns.1, hhead, id_eq, Bool.false_or, Nat.zero_add]
        exact ih'.1
      · intro pre r post heq hpubmem
        cases pre with
        | nil =>
          simp only [runReconnects, List.nil_append, List.cons.injEq] at heq
          obtain ⟨h5, -⟩ := heq
          subst h5
          exact absurd hpubmem (hns.2.2 k MQTT_QOS_LEVEL true v)
        | cons p pre' =>
          simp only [runReconnects, List.cons_append, List.cons.injEq] at heq
          obtain ⟨h5, h6⟩ := heq
          subst h5
          have hrec := ih'.2 pre' r post h6 hpubmem
          refine ⟨hrec.1, ?_⟩
          intro q hq
          rcases List.mem_cons.mp hq with rfl | hq'
          · exact hns.1
          · exact hrec.2 q hq'

/-- Witness for C2 at a concrete input: across two successful reconnects
the single init topic is published exactly once. -/
theorem initTopics_published_once_witness :
    ((runReconnects baseState [(okReconnEnv, 1000), (okReconnEnv, 9999)]).map
        Prod.snd).flatten.count
      (Effect.mqttPublish "nuki_t/lock/state" MQTT_QOS_LEVEL true "locked") = 1 :=
  ((initTopics_published_once [(okReconnEnv, 1000), (okReconnEnv, 9999)] baseState
      "nuki_t/lock/state" "locked" rfl (by decide) (by decide) (by decide)).1).trans
    (by decide)

end NukiHub
